import Mathlib

/-!
Verification of the ASF dashboard and environment validator
(`scripts/compliance-dashboard.py` and `scripts/validate-environment.py`).

The two scripts are embedded shallowly: every branch of the Python code is
translated into an executable Lean definition.  Python dictionaries loaded
from JSON state files are modelled as structures whose fields carry the
value returned by the corresponding `dict.get(key, default)` call; a dict
valued field (`memory_bank_read`) is modelled as an association list with a
defaulting lookup.  Timestamps (`time.time()`) are modelled as integers.
Console output is not modelled; warning, error and fix messages are
modelled as constructors carrying the data interpolated into the message.
-/

namespace ASF

/-- Status strings used by the dashboard:
`'ok'`, `'warn'`, `'blocked'`, `'pending'`, `'unknown'`. -/
inductive Status
  | ok
  | warn
  | blocked
  | pending
  | unknown
deriving DecidableEq, Repr, Fintype

/-- Thresholds from compliance-dashboard.py. -/
def TOKEN_WARNING_THRESHOLD : Nat := 50000

/-- Compaction threshold (`TOKEN_COMPACTION_THRESHOLD = 140000`). -/
def TOKEN_COMPACTION_THRESHOLD : Nat := 140000

/-- Critical threshold (`TOKEN_CRITICAL_THRESHOLD = 170000`). -/
def TOKEN_CRITICAL_THRESHOLD : Nat := 170000

/-- Maximum token budget (`TOKEN_MAX = 200000`). -/
def TOKEN_MAX : Nat := 200000

/-- Recitation warning threshold (`RECITATION_WARNING = 3`). -/
def RECITATION_WARNING : Nat := 3

/-- Recitation blocking threshold (`RECITATION_BLOCKING = 5`). -/
def RECITATION_BLOCKING : Nat := 5

/-- Defaulting dictionary lookup: Python `d.get(key, False)` on a
string-to-bool dict, the dict modelled as an association list. -/
def getRead (d : List (String × Bool)) (f : String) : Bool :=
  (d.lookup f).getD false

/-- The session state record `.claude/.session_state.json` as the dashboard
reads it: each field holds the value of the corresponding
`session_state.get(key, default)` call. -/
structure SessionState where
  initialized : Bool
  sessionId : Option String
  sessionStart : Option Int
  memoryBankRead : List (String × Bool)
  actionsSinceRecitation : Nat
  significantActions : Nat
  agentsConsulted : List String
deriving DecidableEq, Repr

/-- The session state obtained from an absent or empty record `{}`:
every `get` returns its default. -/
def SessionState.empty : SessionState :=
  { initialized := false
  , sessionId := none
  , sessionStart := none
  , memoryBankRead := []
  , actionsSinceRecitation := 0
  , significantActions := 0
  , agentsConsulted := [] }

/-- The list `required_files` in `check_session_status`. -/
def requiredFiles : List String :=
  ["projectbrief", "systemPatterns", "activeContext"]

/-- The list `files_read` in `check_session_status`: the required files marked read
in `memory_bank_read`. -/
def filesRead (s : SessionState) : List String :=
  requiredFiles.filter (fun f => getRead s.memoryBankRead f)

/-- Function `check_session_status`: `ok` when initialized and all required files
read, `warn` when at least one file read, else `blocked`. -/
def checkSessionStatus (s : SessionState) : Status :=
  if s.initialized && (filesRead s).length == requiredFiles.length then .ok
  else if (filesRead s).length > 0 then .warn
  else .blocked

/-- Function `check_recitation_status`: blocked at `RECITATION_BLOCKING` actions,
warn at `RECITATION_WARNING`, ok below. -/
def checkRecitationStatus (s : SessionState) : Status :=
  if s.actionsSinceRecitation ≥ RECITATION_BLOCKING then .blocked
  else if s.actionsSinceRecitation ≥ RECITATION_WARNING then .warn
  else .ok

/-- The context state record as the dashboard reads it. -/
structure ContextState where
  estimatedTokens : Nat
  toolCalls : Nat
  ctxFilesRead : List String
  ctxFilesWritten : List String
deriving DecidableEq, Repr

/-- Context state from an absent or empty record. -/
def ContextState.empty : ContextState :=
  { estimatedTokens := 0, toolCalls := 0
  , ctxFilesRead := [], ctxFilesWritten := [] }

/-- Function `check_context_status`: blocked at the critical threshold, warn at the
compaction threshold, ok below. -/
def checkContextStatus (c : ContextState) : Status :=
  if c.estimatedTokens ≥ TOKEN_CRITICAL_THRESHOLD then .blocked
  else if c.estimatedTokens ≥ TOKEN_COMPACTION_THRESHOLD then .warn
  else .ok

/-- The TDD state record `.claude/.tdd_state.json` as the dashboard reads
it: `tests_run`, `tests_passed` defaulting to false, `timestamp`
defaulting to `None`. -/
structure TddState where
  testsRun : Bool
  testsPassed : Bool
  timestamp : Option Int
deriving DecidableEq, Repr

/-- TDD state from an absent or empty record. -/
def TddState.empty : TddState :=
  { testsRun := false, testsPassed := false, timestamp := none }

/-- Function `check_tdd_status`: ok when tests ran and passed, blocked when tests
ran and failed, pending otherwise. -/
def checkTddStatus (t : TddState) : Status :=
  if t.testsRun && t.testsPassed then .ok
  else if t.testsRun && !t.testsPassed then .blocked
  else .pending

/-- The flag `commit_eligible` in the dict returned by `check_tdd_status`. -/
def commitEligible (t : TddState) : Bool :=
  t.testsRun && t.testsPassed

/-- One entry of the agent consultation log
`.claude/.agent_consultations.json`: `c.get('agent')` may be absent,
`c.get('timestamp', 0)` defaults to 0. -/
structure ConsultationEntry where
  agent : Option String
  timestamp : Int
deriving DecidableEq, Repr

/-- The list `recent` in `check_agent_status`: entries of the log whose timestamp is
within the last 24 hours (`time.time() - c.get('timestamp', 0) < 86400`). -/
def recentConsultations (now : Int) (log : List ConsultationEntry) :
    List ConsultationEntry :=
  log.filter (fun c => now - c.timestamp < 86400)

/-- The list `required_for_commit` in `check_agent_status`. -/
def requiredForCommit : List String := ["qa-engineer"]

/-- The list `required_for_merge` in `check_agent_status`. -/
def requiredForMerge : List String := ["architect", "security-auditor"]

/-- The list `consulted_names`: the agent names of the recent consultations. -/
def consultedNames (now : Int) (log : List ConsultationEntry) :
    List (Option String) :=
  (recentConsultations now log).map (fun c => c.agent)

/-- The list `missing_commit`: required-for-commit agents not among the recent
consulted names. -/
def missingForCommit (now : Int) (log : List ConsultationEntry) :
    List String :=
  requiredForCommit.filter (fun a => !(consultedNames now log).contains (some a))

/-- The list `missing_merge`: required-for-merge agents not among the recent
consulted names. -/
def missingForMerge (now : Int) (log : List ConsultationEntry) :
    List String :=
  requiredForMerge.filter (fun a => !(consultedNames now log).contains (some a))

/-- The status computed by `check_agent_status`. -/
def checkAgentStatus (now : Int) (log : List ConsultationEntry) : Status :=
  if (missingForCommit now log).isEmpty && (missingForMerge now log).isEmpty then .ok
  else if !(missingForCommit now log).isEmpty then .warn
  else .pending

/-- The `self.status` dict of the dashboard. -/
structure StatusMap where
  session : Status
  recitation : Status
  agents : Status
  context : Status
  tdd : Status
deriving DecidableEq, Repr

/-- Function `calculate_overall_status`: the list `statuses` built there holds the
session, recitation, context and tdd statuses (the agents status is not
included). -/
def overallInputs (m : StatusMap) : List Status :=
  [m.session, m.recitation, m.context, m.tdd]

/-- Function `calculate_overall_status`: blocked if any input is blocked, else warn
if any is warn, else pending if any is pending, else ok if all are ok,
else unknown. -/
def calculateOverallStatus (m : StatusMap) : Status :=
  if (overallInputs m).contains .blocked then .blocked
  else if (overallInputs m).contains .warn then .warn
  else if (overallInputs m).contains .pending then .pending
  else if (overallInputs m).all (fun s => s == .ok) then .ok
  else .unknown

/-- Outcome of reading one JSON state file, as `_load_json` sees it:
the file may be missing (`os.path.exists` false), unreadable (`IOError`),
hold invalid JSON (`json.JSONDecodeError`), or parse to a value. -/
inductive FileContent (α : Type)
  | missing
  | unreadable
  | invalidJson
  | parsed (v : α)
deriving DecidableEq, Repr

/-- Function `_load_json(path, default)`: the parsed value on success, the default
on every failure mode; the `try`/`except` makes the function total. -/
def loadJson {α : Type} (content : FileContent α) (default : α) : α :=
  match content with
  | .parsed v => v
  | _ => default

/-!
The State Store as both scripts see it: six keyed records under
`.claude/`.  The recitation and compliance logs are never read by either
script; their entries are modelled with the consultation-entry shape,
which is enough for the frame properties (neither script inspects them).
-/

/-- The six State Store records touched by the two scripts.  `none` models
an absent file. -/
structure StateStore where
  session : Option SessionState
  context : Option ContextState
  tdd : Option TddState
  agentConsultations : Option (List ConsultationEntry)
  recitationLog : Option (List ConsultationEntry)
  complianceLog : Option (List ConsultationEntry)
deriving DecidableEq, Repr

/-- The store with no record present. -/
def StateStore.empty : StateStore :=
  { session := none, context := none, tdd := none
  , agentConsultations := none, recitationLog := none, complianceLog := none }

/-- The dashboard only reads: every `open` in compliance-dashboard.py uses
mode `'r'` (inside `_load_json`), so an invocation leaves the store as it
found it. -/
def dashboardStoreAfter (store : StateStore) : StateStore :=
  store

/-- The dict `fresh_state` written by `reset_session_state`: session id derived from
the current time, all memory-bank entries false, counters zero. -/
def freshSessionState (now : Int) : SessionState :=
  { sessionId := some ("session-" ++ toString now)
  , sessionStart := some now
  , initialized := false
  , memoryBankRead :=
      [("projectbrief", false), ("systemPatterns", false),
       ("activeContext", false), ("decisionLog", false)]
  , actionsSinceRecitation := 0
  , significantActions := 0
  , agentsConsulted := [] }

/-- Function `reset_session_state` at the store level: removes all six state files,
then writes a fresh session state. -/
def resetStoreEffect (now : Int) : StateStore :=
  { session := some (freshSessionState now)
  , context := none, tdd := none
  , agentConsultations := none, recitationLog := none, complianceLog := none }

/-- The validator run at the store level: only `--reset` writes any record
(`reset_session_state` is the sole code path in validate-environment.py
that opens a state file for writing or removes one; `--fix` creates
directories only). -/
def validatorStoreAfter (fix reset : Bool) (now : Int) (store : StateStore) :
    StateStore :=
  let storeAfterReset := if reset then resetStoreEffect now else store
  let _ := fix
  storeAfterReset

/-!
The environment validator at the file level: errors, warnings and fixes
accumulated by `EnvironmentValidator` over a modelled filesystem, and the
exit code of `main`.
-/

/-- What `json.load` yields on a state file that exists: a decode error, or
a dict whose `session_start` key may be absent or hold an integer. -/
inductive ParseOutcome
  | invalid
  | valid (sessionStart : Option Int)
deriving DecidableEq, Repr

/-- The filesystem as the validator probes it: existence per path, and the
parse outcome of the three state files. -/
structure FS where
  pathExists : String → Bool
  parse : String → ParseOutcome

/-- Entries of `self.errors`; the only append is in `check_file_exists`
for a required path. -/
inductive VError
  | missingRequired (path : String)
deriving DecidableEq, Repr

/-- Entries of `self.warnings`, one constructor per appending site. -/
inductive VWarning
  | optionalMissing (path : String)
  | notGitRepo
  | invalidJsonFile (path : String)
  | staleSession (path : String) (hoursOld : Int)
deriving DecidableEq, Repr

/-- Entries of `self.fixes_applied`. -/
inductive VFix
  | removedStateFile (path : String)
  | createdFreshSessionState
  | createdDirectory (path : String)
deriving DecidableEq, Repr

/-- The mutable lists of `EnvironmentValidator`. -/
structure VAcc where
  errors : List VError
  warnings : List VWarning
  fixesApplied : List VFix
deriving DecidableEq, Repr

/-- The validator state at construction. -/
def VAcc.init : VAcc := { errors := [], warnings := [], fixesApplied := [] }

/-- Function `check_file_exists`: a missing required path appends an error, a
missing optional path appends a warning. -/
def checkFileExists (fs : FS) (path : String) (required : Bool) (acc : VAcc) :
    VAcc :=
  if fs.pathExists path then acc
  else if required then
    { acc with errors := acc.errors ++ [.missingRequired path] }
  else
    { acc with warnings := acc.warnings ++ [.optionalMissing path] }

/-- A `validate_*` loop over a `(path, required)` table. -/
def checkFileList (fs : FS) (files : List (String × Bool)) (acc : VAcc) :
    VAcc :=
  files.foldl (fun a pr => checkFileExists fs pr.1 pr.2 a) acc

/-- Table of `validate_memory_bank`: all seven files required. -/
def memoryBankFiles : List (String × Bool) :=
  [("memory-bank/projectbrief.md", true),
   ("memory-bank/systemPatterns.md", true),
   ("memory-bank/activeContext.md", true),
   ("memory-bank/productContext.md", true),
   ("memory-bank/techContext.md", true),
   ("memory-bank/progress.md", true),
   ("memory-bank/decisionLog.md", true)]

/-- Table of `validate_claude_config`: settings.json is optional. -/
def claudeConfigFiles : List (String × Bool) :=
  [(".claude/CLAUDE.md", true),
   (".claude/PROTOCOL_ENFORCEMENT.md", true),
   (".claude/settings.json", false)]

/-- Table of `validate_hooks`: the notification hook is optional. -/
def hookFiles : List (String × Bool) :=
  [(".claude/hooks/pre_tool_use.py", true),
   (".claude/hooks/post_tool_use.py", true),
   (".claude/hooks/user_prompt_submit.sh", true),
   (".claude/hooks/session_tracker.py", true),
   (".claude/hooks/notification.py", false)]

/-- Table of `validate_commands`: all five required. -/
def commandFiles : List (String × Bool) :=
  [(".claude/commands/prd-new.md", true),
   (".claude/commands/epic-decompose.md", true),
   (".claude/commands/memory-update.md", true),
   (".claude/commands/worktree-sync.md", true),
   (".claude/commands/session-init.md", true)]

/-- Table of `validate_agents`: all four required. -/
def agentFiles : List (String × Bool) :=
  [(".claude/agents/architect.md", true),
   (".claude/agents/qa-engineer.md", true),
   (".claude/agents/security-auditor.md", true),
   (".claude/agents/product-manager.md", true)]

/-- Every `(path, required)` pair checked via `check_file_exists`, in run
order. -/
def allCheckedFiles : List (String × Bool) :=
  memoryBankFiles ++ claudeConfigFiles ++ hookFiles ++ commandFiles ++ agentFiles

/-- Function `validate_worktrees`: warns when neither `.git` nor `.bare` exists;
the worktree directory probes only log informational messages. -/
def validateWorktrees (fs : FS) (acc : VAcc) : VAcc :=
  if fs.pathExists ".git" || fs.pathExists ".bare" then acc
  else { acc with warnings := acc.warnings ++ [.notGitRepo] }

/-- The three state files scanned by `validate_session_state`. -/
def stateFilePaths : List String :=
  [".claude/.session_state.json", ".claude/.context_state.json",
   ".claude/.tdd_state.json"]

/-- The staleness window used in `validate_session_state` (4 hours). -/
def STALE_WINDOW : Int := 14400

/-- One iteration of `validate_session_state`: an existing file with
invalid JSON warns; a parsed `session_start` older than the stale window
warns with the age in whole hours; anything else only logs. -/
def checkOneStateFile (now : Int) (fs : FS) (path : String) (acc : VAcc) :
    VAcc :=
  if fs.pathExists path then
    match fs.parse path with
    | .invalid =>
        { acc with warnings := acc.warnings ++ [.invalidJsonFile path] }
    | .valid none => acc
    | .valid (some start) =>
        if now - start > STALE_WINDOW then
          { acc with warnings :=
              acc.warnings ++ [.staleSession path ((now - start) / 3600)] }
        else acc
  else acc

/-- Function `validate_session_state` over the three state files. -/
def validateSessionState (now : Int) (fs : FS) (acc : VAcc) : VAcc :=
  stateFilePaths.foldl (fun a p => checkOneStateFile now fs p a) acc

/-- The six state files removed by `reset_session_state`. -/
def resetStatePaths : List String :=
  [".claude/.session_state.json", ".claude/.context_state.json",
   ".claude/.tdd_state.json", ".claude/.agent_consultations.json",
   ".claude/.recitation_log.json", ".claude/.compliance_log.json"]

/-- Filesystem effect of `reset_session_state`: the six state files are
removed, `.claude` is created, and a fresh session state file is written
whose `session_start` is the current time. -/
def resetFsEffect (now : Int) (fs : FS) : FS :=
  { pathExists := fun p =>
      if p = ".claude/.session_state.json" then true
      else if resetStatePaths.contains p then false
      else if p = ".claude" then true
      else fs.pathExists p
  , parse := fun p =>
      if p = ".claude/.session_state.json" then .valid (some now)
      else fs.parse p }

/-- Fixes logged by `reset_session_state`: one per removed file, then the
fresh-state creation. -/
def resetFixes (fs : FS) : List VFix :=
  (resetStatePaths.filter fs.pathExists).map .removedStateFile ++
    [.createdFreshSessionState]

/-- Directories created by `create_missing_directories`. -/
def fixDirectories : List String :=
  [".claude", ".claude/hooks", ".claude/commands", ".claude/agents",
   ".claude/prds", ".claude/epics", "memory-bank"]

/-- Filesystem effect of `create_missing_directories`. -/
def fixFsEffect (fs : FS) : FS :=
  { fs with pathExists := fun p =>
      if fixDirectories.contains p then true else fs.pathExists p }

/-- Fixes logged by `create_missing_directories`: one per directory that
did not yet exist. -/
def fixFixes (fs : FS) : List VFix :=
  (fixDirectories.filter (fun d => !fs.pathExists d)).map .createdDirectory

/-- Function `run_all_checks(fix, reset)`: optional reset, optional directory
creation, the five file groups, the worktree check, the state-file scan.
Returns the accumulated validator state and the filesystem after the
side effects. -/
def runAllChecks (fix reset : Bool) (now : Int) (fs : FS) : VAcc × FS :=
  let acc0 : VAcc :=
    if reset then { VAcc.init with fixesApplied := resetFixes fs } else VAcc.init
  let fs0 := if reset then resetFsEffect now fs else fs
  let acc1 : VAcc :=
    if fix then { acc0 with fixesApplied := acc0.fixesApplied ++ fixFixes fs0 }
    else acc0
  let fs1 := if fix then fixFsEffect fs0 else fs0
  let acc2 := checkFileList fs1 memoryBankFiles acc1
  let acc3 := checkFileList fs1 claudeConfigFiles acc2
  let acc4 := checkFileList fs1 hookFiles acc3
  let acc5 := checkFileList fs1 commandFiles acc4
  let acc6 := checkFileList fs1 agentFiles acc5
  let acc7 := validateWorktrees fs1 acc6
  let acc8 := validateSessionState now fs1 acc7
  (acc8, fs1)

/-- Function `print_summary` returns `True` exactly when `self.errors` is empty. -/
def validationPassed (acc : VAcc) : Bool :=
  acc.errors.isEmpty

/-- Function `main` of the validator: `sys.exit(0 if success else 1)`. -/
def mainExitCode (fix reset : Bool) (now : Int) (fs : FS) : Nat :=
  if validationPassed (runAllChecks fix reset now fs).1 then 0 else 1

/-- Ranking of the context statuses by severity, used to state that the
context status is monotone in the token count: ok below warn below
blocked (the remaining statuses never arise from `check_context_status`
and are ranked above). -/
def statusRank : Status → Nat
  | .ok => 0
  | .warn => 1
  | .blocked => 2
  | .pending => 3
  | .unknown => 4

/-- C2: the recitation status is ok exactly for counters in [0, 3),
warn exactly for counters in [3, 5), and blocked exactly from 5 on. -/
theorem recitation_status_thresholds (s : SessionState) :
    (checkRecitationStatus s = .ok ↔ s.actionsSinceRecitation < 3) ∧
    (checkRecitationStatus s = .warn ↔
      3 ≤ s.actionsSinceRecitation ∧ s.actionsSinceRecitation < 5) ∧
    (checkRecitationStatus s = .blocked ↔ 5 ≤ s.actionsSinceRecitation) := by
  unfold checkRecitationStatus RECITATION_WARNING RECITATION_BLOCKING
  split_ifs with h1 h2 <;> refine ⟨?_, ?_, ?_⟩ <;> (simp_all; try omega)

/-- C9: the context status is blocked exactly from 170000 estimated
tokens, warn exactly on [140000, 170000), ok exactly below 140000, and
its severity rank is monotone in the token count. -/
theorem context_status_thresholds (c c' : ContextState) :
    (checkContextStatus c = .blocked ↔ 170000 ≤ c.estimatedTokens) ∧
    (checkContextStatus c = .warn ↔
      140000 ≤ c.estimatedTokens ∧ c.estimatedTokens < 170000) ∧
    (checkContextStatus c = .ok ↔ c.estimatedTokens < 140000) ∧
    (c.estimatedTokens ≤ c'.estimatedTokens →
      statusRank (checkContextStatus c) ≤ statusRank (checkContextStatus c')) := by
  unfold checkContextStatus TOKEN_CRITICAL_THRESHOLD TOKEN_COMPACTION_THRESHOLD
  split_ifs with h1 h2 h3 h4 h5 h6 <;>
    refine ⟨?_, ?_, ?_, fun hle => ?_⟩ <;> simp_all [statusRank] <;> omega

/-- C9 witness: growing the token count from 0 to 200000 moves the
context status rank upward. -/
theorem context_status_thresholds_witness :
    statusRank (checkContextStatus { ContextState.empty with estimatedTokens := 0 }) ≤
      statusRank (checkContextStatus { ContextState.empty with estimatedTokens := 200000 }) :=
  (context_status_thresholds
    { ContextState.empty with estimatedTokens := 0 }
    { ContextState.empty with estimatedTokens := 200000 }).2.2.2 (by decide)

/-- C4 counterexample: at time 900 a TDD record written at time 0 is
fifteen minutes old (expired), yet the dashboard computes status ok and
commit eligibility true for it, while an absent record (all gets
defaulting) yields pending and false. -/
theorem tdd_expired_not_absent_counterexample :
    (900 : Int) - 0 ≥ 900 ∧
    checkTddStatus { testsRun := true, testsPassed := true, timestamp := some 0 } = .ok ∧
    commitEligible { testsRun := true, testsPassed := true, timestamp := some 0 } = true ∧
    checkTddStatus TddState.empty = .pending ∧
    commitEligible TddState.empty = false := by
  decide

/-- C4 amended: the dashboard TDD status and commit eligibility ignore
the record timestamp entirely — they depend only on `tests_run` and
`tests_passed`, so an expired record is treated like a fresh one, not
like an absent one. -/
theorem tdd_status_ignores_timestamp (r p : Bool) (t t' : Option Int) :
    checkTddStatus { testsRun := r, testsPassed := p, timestamp := t } =
      checkTddStatus { testsRun := r, testsPassed := p, timestamp := t' } ∧
    commitEligible { testsRun := r, testsPassed := p, timestamp := t } =
      commitEligible { testsRun := r, testsPassed := p, timestamp := t' } :=
  ⟨rfl, rfl⟩

/-- C6: loading a state record whose file is missing, unreadable or
invalid JSON returns the supplied default; the loader is a total
function (a Lean definition, hence defined on every input). -/
theorem load_json_total_defaults {α : Type} (content : FileContent α) (dflt : α)
    (h : content = .missing ∨ content = .unreadable ∨ content = .invalidJson) :
    loadJson content dflt = dflt := by
  rcases h with h | h | h <;> subst h <;> rfl

/-- C6 witness: loading a missing file with default 42 yields 42. -/
theorem load_json_total_defaults_witness :
    loadJson (FileContent.missing : FileContent Nat) 42 = 42 :=
  load_json_total_defaults (FileContent.missing : FileContent Nat) 42 (Or.inl rfl)

/-- C8: the overall status is a function of the session, recitation,
context and tdd statuses only (the agents status never influences it),
and it is blocked if any of the four is blocked, otherwise warn if any
is warn, otherwise pending if any is pending, and ok when all four are
ok. -/
theorem overall_status_cascade (m : StatusMap) (a : Status) :
    (calculateOverallStatus { m with agents := a } = calculateOverallStatus m) ∧
    (Status.blocked ∈ overallInputs m → calculateOverallStatus m = .blocked) ∧
    (Status.blocked ∉ overallInputs m → Status.warn ∈ overallInputs m →
      calculateOverallStatus m = .warn) ∧
    (Status.blocked ∉ overallInputs m → Status.warn ∉ overallInputs m →
      Status.pending ∈ overallInputs m → calculateOverallStatus m = .pending) ∧
    ((∀ s ∈ overallInputs m, s = Status.ok) → calculateOverallStatus m = .ok) := by
  refine ⟨rfl, ?_, ?_, ?_, ?_⟩ <;>
    rcases m with ⟨s, r, ag, c, t⟩ <;>
    revert s r ag c t <;>
    decide

/-- C8 witness: one blocked input forces a blocked overall status, and a
blocked agents status alone leaves the overall status ok. -/
theorem overall_status_cascade_witness :
    calculateOverallStatus
      { session := .blocked, recitation := .ok, agents := .ok
      , context := .ok, tdd := .ok } = .blocked ∧
    calculateOverallStatus
      { session := .ok, recitation := .ok, agents := .blocked
      , context := .ok, tdd := .ok } = .ok :=
  ⟨(overall_status_cascade
      { session := .blocked, recitation := .ok, agents := .ok
      , context := .ok, tdd := .ok } .ok).2.1 (by decide),
   (overall_status_cascade
      { session := .ok, recitation := .ok, agents := .blocked
      , context := .ok, tdd := .ok } .ok).2.2.2.2 (by decide)⟩

/-- C1 counterexample: a validator invocation with `--reset` changes the
State Store — starting from an empty store, the session record is
created, so not every record is unchanged after every run. -/
theorem store_readonly_counterexample :
    validatorStoreAfter false true 1000 StateStore.empty ≠ StateStore.empty := by
  decide

/-- C1 amended: the dashboard leaves every State Store record unchanged
on every invocation; the validator does so on every invocation without
`--reset`, while with `--reset` it removes all six records and writes a
fresh session state. -/
theorem store_effects_of_scripts :
    (∀ store : StateStore, dashboardStoreAfter store = store) ∧
    (∀ (fix : Bool) (now : Int) (store : StateStore),
      validatorStoreAfter fix false now store = store) ∧
    (∀ (fix : Bool) (now : Int) (store : StateStore),
      validatorStoreAfter fix true now store = resetStoreEffect now) :=
  ⟨fun _ => rfl, fun _ _ _ => rfl, fun _ _ _ => rfl⟩

/-- C7: the fresh session state written by `reset_session_state` has
`initialized` false and every memory-bank document unread (so the
initialization invariant holds on it), and the dashboard reports session
status ok exactly when `initialized` holds together with all three
required documents read. -/
theorem session_initialized_invariant :
    (∀ now : Int, (freshSessionState now).initialized = false ∧
      ∀ f : String, getRead (freshSessionState now).memoryBankRead f = false) ∧
    (∀ s : SessionState, checkSessionStatus s = .ok ↔
      (s.initialized = true ∧
        ∀ f ∈ requiredFiles, getRead s.memoryBankRead f = true)) := by
  constructor
  · intro now
    refine ⟨rfl, fun f => ?_⟩
    cases h1 : f == "projectbrief" <;>
      cases h2 : f == "systemPatterns" <;>
      cases h3 : f == "activeContext" <;>
      cases h4 : f == "decisionLog" <;>
      simp [getRead, freshSessionState, List.lookup, h1, h2, h3, h4]
  · intro s
    cases hi : s.initialized <;>
      cases h1 : getRead s.memoryBankRead "projectbrief" <;>
      cases h2 : getRead s.memoryBankRead "systemPatterns" <;>
      cases h3 : getRead s.memoryBankRead "activeContext" <;>
      simp [checkSessionStatus, filesRead, requiredFiles, hi, h1, h2, h3,
        List.filter]

/-- Agents named by a log entry whose timestamp lies within the last 24
hours, written directly from the wording of the claim; compared below
with the lists the dashboard computes. -/
def specNamedWithinWindow (now : Int) (log : List ConsultationEntry)
    (a : String) : Bool :=
  log.any (fun e => e.agent == some a && now - e.timestamp < 86400)

/-- C5: the agents missing for commit are exactly the required-for-commit
agents not named by any log entry of the last 24 hours, likewise for
push and merge, and an entry 24 hours old or older is never counted as
recent. -/
theorem agent_consultation_window (now : Int) (log : List ConsultationEntry) :
    missingForCommit now log =
      requiredForCommit.filter (fun a => !specNamedWithinWindow now log a) ∧
    missingForMerge now log =
      requiredForMerge.filter (fun a => !specNamedWithinWindow now log a) ∧
    (∀ e ∈ log, now - e.timestamp ≥ 86400 → e ∉ recentConsultations now log) := by
  have hnames : ∀ a : String,
      (consultedNames now log).contains (some a) = specNamedWithinWindow now log a := by
    intro a
    rw [Bool.eq_iff_iff]
    simp [consultedNames, recentConsultations, specNamedWithinWindow,
      List.any_eq_true, List.mem_map, List.mem_filter]
    constructor
    · rintro ⟨e, ⟨he, hrec⟩, hag⟩
      exact ⟨e, he, by simp [hag], hrec⟩
    · rintro ⟨e, he, hag, hrec⟩
      exact ⟨e, ⟨he, hrec⟩, by simpa using hag⟩
  refine ⟨?_, ?_, ?_⟩
  · unfold missingForCommit
    exact List.filter_congr (fun a _ => by rw [hnames a])
  · unfold missingForMerge
    exact List.filter_congr (fun a _ => by rw [hnames a])
  · intro e _ hage hmem
    simp [recentConsultations, List.mem_filter] at hmem
    omega

/-- C5 witness: with one qa-engineer consultation recorded 100000 seconds
ago, the consultation is no longer recent and qa-engineer is missing for
commit. -/
theorem agent_consultation_window_witness :
    missingForCommit 100000 [{ agent := some "qa-engineer", timestamp := 0 }] =
      ["qa-engineer"] ∧
    ({ agent := some "qa-engineer", timestamp := 0 } : ConsultationEntry) ∉
      recentConsultations 100000 [{ agent := some "qa-engineer", timestamp := 0 }] :=
  ⟨(agent_consultation_window 100000
      [{ agent := some "qa-engineer", timestamp := 0 }]).1.trans (by decide),
   (agent_consultation_window 100000
      [{ agent := some "qa-engineer", timestamp := 0 }]).2.2
      { agent := some "qa-engineer", timestamp := 0 } (by decide) (by decide)⟩

/-- Warnings contributed by one state file in `validate_session_state`,
as a list (empty when the file is fine, a singleton otherwise). -/
def stateFileWarningsOf (now : Int) (fs : FS) (path : String) :
    List VWarning :=
  if fs.pathExists path then
    match fs.parse path with
    | .invalid => [.invalidJsonFile path]
    | .valid none => []
    | .valid (some start) =>
        if now - start > STALE_WINDOW then
          [.staleSession path ((now - start) / 3600)]
        else []
  else []

lemma checkOneStateFile_eq (now : Int) (fs : FS) (path : String) (acc : VAcc) :
    checkOneStateFile now fs path acc =
      { acc with warnings := acc.warnings ++ stateFileWarningsOf now fs path } := by
  unfold checkOneStateFile stateFileWarningsOf
  cases hex : fs.pathExists path
  · simp
  · simp only [if_true]
    cases hp : fs.parse path with
    | invalid => simp
    | valid st =>
      cases st with
      | none => simp
      | some start =>
        by_cases hc : now - start > STALE_WINDOW
        · simp [hc]
        · simp [hc]

lemma validateSessionState_eq (now : Int) (fs : FS) (acc : VAcc) :
    validateSessionState now fs acc =
      { acc with warnings := acc.warnings ++
          stateFileWarningsOf now fs ".claude/.session_state.json" ++
          stateFileWarningsOf now fs ".claude/.context_state.json" ++
          stateFileWarningsOf now fs ".claude/.tdd_state.json" } := by
  simp [validateSessionState, stateFilePaths, List.foldl, checkOneStateFile_eq,
    List.append_assoc]

lemma stateFileWarningsOf_paths (now : Int) (fs : FS) (path : String) :
    ∀ w ∈ stateFileWarningsOf now fs path,
      w = VWarning.invalidJsonFile path ∨
        ∃ h, w = VWarning.staleSession path h := by
  intro w hw
  unfold stateFileWarningsOf at hw
  split at hw
  · split at hw
    · simp at hw
      exact Or.inl hw
    · simp at hw
    · split at hw
      · simp at hw
        exact Or.inr ⟨_, hw⟩
      · simp at hw
  · simp at hw

/-- A session state started at time 0 with all three documents read:
stale from time 14401 on. -/
def staleSessionSample : SessionState :=
  { initialized := true, sessionId := some "s", sessionStart := some 0
  , memoryBankRead :=
      [("projectbrief", true), ("systemPatterns", true), ("activeContext", true)]
  , actionsSinceRecitation := 0, significantActions := 0
  , agentsConsulted := [] }

/-- A store holding only the stale session sample. -/
def staleStoreSample : StateStore :=
  { StateStore.empty with session := some staleSessionSample }

/-- C3 counterexample: a session state 20000 seconds old (more than 4
hours) with all documents read is reported ok by the dashboard — not
blocked as the default state would be — and a validator run without
`--reset` leaves the stale record in the store, so the stale record is
not treated as absent by these consumers. -/
theorem stale_session_counterexample :
    (20000 : Int) - 0 > 14400 ∧
    checkSessionStatus staleSessionSample = .ok ∧
    checkSessionStatus SessionState.empty = .blocked ∧
    validatorStoreAfter false false 20000 staleStoreSample = staleStoreSample := by
  refine ⟨by decide, by decide, by decide, rfl⟩

/-- C3 amended: a session state whose `session_start` is more than 4
hours before now is flagged by the validator with a stale-session
warning — a warning only, the errors list is untouched and the record is
not reset on a run without `--reset` — while the dashboard session
status does not depend on `session_start` at all. -/
theorem stale_session_handling (now start : Int) (fs : FS)
    (s : SessionState) (t t' : Option Int)
    (hex : fs.pathExists ".claude/.session_state.json" = true)
    (hp : fs.parse ".claude/.session_state.json" = .valid (some start)) :
    (VWarning.staleSession ".claude/.session_state.json" ((now - start) / 3600) ∈
        (validateSessionState now fs VAcc.init).warnings ↔
      now - start > 14400) ∧
    (validateSessionState now fs VAcc.init).errors = [] ∧
    checkSessionStatus { s with sessionStart := t } =
      checkSessionStatus { s with sessionStart := t' } ∧
    (∀ (fix : Bool) (store : StateStore),
      validatorStoreAfter fix false now store = store) := by
  refine ⟨?_, ?_, rfl, fun _ _ => rfl⟩
  · rw [validateSessionState_eq]
    simp only [VAcc.init, List.nil_append, List.mem_append]
    constructor
    · rintro ((h | h) | h)
      · by_cases hc : now - start > 14400
        · exact hc
        · exfalso
          simp [stateFileWarningsOf, hex, hp, STALE_WINDOW, hc] at h
      · rcases stateFileWarningsOf_paths now fs _ _ h with h' | ⟨x, h'⟩
        · exact VWarning.noConfusion h'
        · injection h' with h1 h2
          exact absurd h1 (by decide)
      · rcases stateFileWarningsOf_paths now fs _ _ h with h' | ⟨x, h'⟩
        · exact VWarning.noConfusion h'
        · injection h' with h1 h2
          exact absurd h1 (by decide)
    · intro hstale
      refine Or.inl (Or.inl ?_)
      simp [stateFileWarningsOf, hex, hp, STALE_WINDOW, hstale]
  · rw [validateSessionState_eq]
    rfl

/-- C3 witness: on a filesystem holding only a session state written at
time 0, a check at time 20000 emits the stale-session warning (age 5
whole hours) and no error. -/
theorem stale_session_handling_witness :
    VWarning.staleSession ".claude/.session_state.json" 5 ∈
      (validateSessionState 20000
        { pathExists := fun p => p == ".claude/.session_state.json"
        , parse := fun _ => .valid (some 0) } VAcc.init).warnings ∧
    (validateSessionState 20000
      { pathExists := fun p => p == ".claude/.session_state.json"
      , parse := fun _ => .valid (some 0) } VAcc.init).errors = [] :=
  ⟨((stale_session_handling 20000 0
      { pathExists := fun p => p == ".claude/.session_state.json"
      , parse := fun _ => .valid (some 0) }
      SessionState.empty none none rfl rfl).1).mpr (by decide),
   (stale_session_handling 20000 0
      { pathExists := fun p => p == ".claude/.session_state.json"
      , parse := fun _ => .valid (some 0) }
      SessionState.empty none none rfl rfl).2.1⟩

lemma checkFileExists_errors (fs : FS) (path : String) (required : Bool)
    (acc : VAcc) :
    (checkFileExists fs path required acc).errors =
      acc.errors ++
        (if required && !fs.pathExists path then [VError.missingRequired path]
         else []) := by
  unfold checkFileExists
  cases hex : fs.pathExists path <;> cases required <;> simp

lemma checkFileList_errors (fs : FS) (files : List (String × Bool))
    (acc : VAcc) :
    (checkFileList fs files acc).errors =
      acc.errors ++
        (files.filter (fun pr => pr.2 && !fs.pathExists pr.1)).map
          (fun pr => VError.missingRequired pr.1) := by
  induction files generalizing acc with
  | nil => simp [checkFileList]
  | cons pr rest ih =>
    have h1 : checkFileList fs (pr :: rest) acc =
        checkFileList fs rest (checkFileExists fs pr.1 pr.2 acc) := rfl
    rw [h1, ih, checkFileExists_errors]
    cases hex : fs.pathExists pr.1 <;> cases hreq : pr.2 <;>
      simp [List.filter_cons, hex, hreq, List.append_assoc]

lemma validateWorktrees_errors (fs : FS) (acc : VAcc) :
    (validateWorktrees fs acc).errors = acc.errors := by
  unfold validateWorktrees
  split <;> rfl

lemma validateSessionState_errors (now : Int) (fs : FS) (acc : VAcc) :
    (validateSessionState now fs acc).errors = acc.errors := by
  rw [validateSessionState_eq]

lemma runAllChecks_errors (fix reset : Bool) (now : Int) (fs : FS) :
    (runAllChecks fix reset now fs).1.errors =
      (allCheckedFiles.filter
        (fun pr => pr.2 && !(runAllChecks fix reset now fs).2.pathExists pr.1)).map
        (fun pr => VError.missingRequired pr.1) := by
  unfold runAllChecks allCheckedFiles
  cases reset <;> cases fix <;>
    simp [validateSessionState_errors, validateWorktrees_errors,
      checkFileList_errors, VAcc.init, List.filter_append, List.map_append,
      List.append_assoc]

lemma runAllChecks_pathExists_parse_independent (fix reset : Bool)
    (now now' : Int) (g : String → ParseOutcome) (fs : FS) :
    (runAllChecks fix reset now' { fs with parse := g }).2.pathExists =
      (runAllChecks fix reset now fs).2.pathExists := by
  cases reset <;> cases fix <;> rfl

/-- C10: the validator exits with status 0 exactly when its errors list
is empty at the end of the run, the errors list is empty exactly when
every required checked file exists, and the exit status does not depend
on the parse outcomes of the state files (the source of the
stale-session and invalid-JSON warnings) nor on the current time. -/
theorem validator_exit_code (fix reset : Bool) (now : Int) (fs : FS) :
    (mainExitCode fix reset now fs = 0 ↔
      (runAllChecks fix reset now fs).1.errors = []) ∧
    (mainExitCode fix reset now fs = 0 ↔
      ∀ pr ∈ allCheckedFiles, pr.2 = true →
        (runAllChecks fix reset now fs).2.pathExists pr.1 = true) ∧
    (∀ (g : String → ParseOutcome) (now' : Int),
      mainExitCode fix reset now' { fs with parse := g } =
        mainExitCode fix reset now fs) := by
  have hmain : ∀ (fx rs : Bool) (n : Int) (f1 : FS),
      (mainExitCode fx rs n f1 = 0 ↔ (runAllChecks fx rs n f1).1.errors = []) := by
    intro fx rs n f1
    have hiff : validationPassed (runAllChecks fx rs n f1).1 = true ↔
        (runAllChecks fx rs n f1).1.errors = [] := by
      simp [validationPassed, List.isEmpty_iff]
    rw [← hiff]
    unfold mainExitCode
    cases hv : validationPassed (runAllChecks fx rs n f1).1 <;> simp [hv]
  have herr : ∀ (fx rs : Bool) (n : Int) (f1 : FS),
      ((runAllChecks fx rs n f1).1.errors = [] ↔
        ∀ pr ∈ allCheckedFiles, pr.2 = true →
          (runAllChecks fx rs n f1).2.pathExists pr.1 = true) := by
    intro fx rs n f1
    rw [runAllChecks_errors]
    simp only [List.map_eq_nil_iff, List.filter_eq_nil_iff]
    constructor
    · intro h pr hmem hreq
      have h2 := h pr hmem
      rw [hreq] at h2
      simpa using h2
    · intro h pr hmem
      by_cases hreq : pr.2 = true
      · have h2 := h pr hmem hreq
        simp [hreq, h2]
      · rw [Bool.not_eq_true] at hreq
        simp [hreq]
  refine ⟨hmain fix reset now fs, (hmain fix reset now fs).trans (herr fix reset now fs), ?_⟩
  intro g now'
  have e1 := (hmain fix reset now' { fs with parse := g }).trans
    (herr fix reset now' { fs with parse := g })
  have e2 := (hmain fix reset now fs).trans (herr fix reset now fs)
  rw [runAllChecks_pathExists_parse_independent fix reset now now' g fs] at e1
  have hcases : ∀ (fx rs : Bool) (n : Int) (f1 : FS),
      mainExitCode fx rs n f1 = 0 ∨ mainExitCode fx rs n f1 = 1 := by
    intro fx rs n f1
    unfold mainExitCode
    split
    · exact Or.inl rfl
    · exact Or.inr rfl
  by_cases hP : ∀ pr ∈ allCheckedFiles, pr.2 = true →
      (runAllChecks fix reset now fs).2.pathExists pr.1 = true
  · rw [e1.mpr hP, e2.mpr hP]
  · rcases hcases fix reset now' { fs with parse := g } with h1 | h1 <;>
      rcases hcases fix reset now fs with h2 | h2
    · rw [h1, h2]
    · exact absurd (e1.mp h1) hP
    · exact absurd (e2.mp h2) hP
    · rw [h1, h2]

/-- A filesystem where everything exists except the optional
settings.json, and every state file parses as invalid JSON: warnings
accumulate but no error. -/
def warningOnlyFs : FS :=
  { pathExists := fun p => !(p == ".claude/settings.json")
  , parse := fun _ => .invalid }

/-- C10 witness: on a filesystem missing only the optional settings file
and holding unparsable state files, the validator accumulates warnings
yet exits with status 0. -/
theorem validator_exit_code_witness :
    mainExitCode false false 0 warningOnlyFs = 0 ∧
    (runAllChecks false false 0 warningOnlyFs).1.warnings ≠ [] :=
  ⟨((validator_exit_code false false 0 warningOnlyFs).2.1).mpr (by decide),
   by decide⟩

end ASF
